import Mathlib

/-!
# Verification of the boomer bookmark store (`src/database/database.py`)

Shallow embedding of the SQLite-backed `BookmarkDatabase` class. The database
state (tables `bookmarks`, `tags`, `bookmark_tags`, and the fts5 index
`bookmark_fts`) is modelled as explicit record state; each Python method
becomes a pure function threading that state.

SQLite engine facts baked into the embedding (all per the SQLite
documentation, and checked against sqlite 3.40 behaviour):

* `sqlite3.connect` opens every connection with `PRAGMA foreign_keys = OFF`
  (the default); the code never turns it on, so the `ON DELETE CASCADE`
  clauses on `bookmark_tags` never fire.
* `bookmark_fts` is an *external content* fts5 table (`content=bookmarks`):
  it stores only an inverted index, a set of postings derived from the
  supplied column values.  Re-`INSERT`ing a rowid with values identical to
  postings already present is a no-op (the posting set is unchanged), while
  inserting different values accumulates further postings for that rowid.
  We model the index at whole-entry granularity as a duplicate-free list of
  `FtsEntry` values with set-style insertion.
* A plain `DELETE FROM bookmark_fts WHERE rowid = x` on an external content
  table must read the column values for `x` from the content table
  (`bookmarks`) in order to know which postings to remove.  Inside the
  code's `AFTER DELETE` trigger the `bookmarks` row is already gone, so no
  values are found and no postings are removed — the index entry outlives
  the bookmark.  (This is why the fts5 manual's trigger pattern passes
  `old.*` explicitly via the special `'delete'` command.)
* A column declared `NOT NULL` rejects SQL `NULL` (Python `None`) with
  `sqlite3.IntegrityError`, but accepts the empty string.
* `INTEGER PRIMARY KEY` without `AUTOINCREMENT` assigns `max(id) + 1` (and
  `1` for an empty table) as the new rowid, reported as `cursor.lastrowid`.
* A query string that is malformed per the fts5 query grammar (e.g. the
  bare token `"AND"`) makes the `MATCH` statement raise
  `sqlite3.OperationalError`.

Optional (`NULL`-able) SQL values are `Option`; timestamps (`date_added`,
from `datetime.now()`) are abstracted to a `Nat` supplied by the caller.
-/

namespace Boomer

/-- A row of the `bookmarks` table (`CREATE TABLE bookmarks ...`,
`database.py` lines 90-100).  `url` and `title` are `NOT NULL` (so plain
`String` here); `date_added` is `NOT NULL` and always supplied by
`add_bookmark`; the remaining columns are nullable. -/
structure BookmarkRow where
  id : Nat
  url : String
  title : String
  description : Option String
  date_added : Nat
  content_snippet : Option String
  source : Option String
  deriving Repr, DecidableEq

/-- A row of the `tags` table (`database.py` lines 103-110). -/
structure TagRow where
  id : Nat
  name : String
  category : Option String
  auto_generated : Option Bool
  deriving Repr, DecidableEq

/-- A row of the `bookmark_tags` junction table (`database.py` lines
113-122).  `confidence FLOAT` is never computed with by any operation, so
its values are carried opaquely as `Option Int`. -/
structure BookmarkTagRow where
  bookmark_id : Nat
  tag_id : Nat
  confidence : Option Int
  deriving Repr, DecidableEq

/-- One entry of the fts5 inverted index `bookmark_fts` (`database.py`
lines 125-132): the rowid together with the column values whose tokens were
indexed for it. -/
structure FtsEntry where
  rowid : Nat
  title : Option String
  description : Option String
  content_snippet : Option String
  deriving Repr, DecidableEq

/-- The whole on-disk database state. -/
structure DBState where
  bookmarks : List BookmarkRow
  tags : List TagRow
  bookmark_tags : List BookmarkTagRow
  bookmark_fts : List FtsEntry
  deriving Repr, DecidableEq

/-- A freshly created, empty database file. -/
def emptyDB : DBState := ⟨[], [], [], []⟩

/-- The sqlite3 exceptions the code can encounter: `IntegrityError`
(UNIQUE / NOT NULL constraint violation) and `OperationalError` (e.g. fts5
query syntax error). -/
inductive SqliteError
  | IntegrityError
  | OperationalError
  deriving Repr, DecidableEq

/-- Exceptions escaping a `BookmarkDatabase` method: the module's own
`DuplicateBookmarkError` (`database.py` lines 30-33), or an uncaught
sqlite3 exception. -/
inductive PyExn
  | DuplicateBookmarkError
  | sqlite (e : SqliteError)
  deriving Repr, DecidableEq

/-- The fts5 index entry the triggers derive from a `bookmarks` row:
`(id, title, description, content_snippet)`. -/
def entryOf (b : BookmarkRow) : FtsEntry :=
  ⟨b.id, some b.title, b.description, b.content_snippet⟩

/-- `INSERT INTO bookmark_fts(rowid, title, description, content_snippet)`
on the external content fts5 table: adds the derived postings to the index.
Posting sets merge, so re-inserting an entry already present is a no-op. -/
def ftsInsert (ix : List FtsEntry) (e : FtsEntry) : List FtsEntry :=
  if e ∈ ix then ix else ix ++ [e]

/-- `DELETE FROM bookmark_fts WHERE rowid = rid` on the external content
fts5 table: fts5 reads the column values for `rid` from the content table
`content` (= `bookmarks`) and removes the postings derived from them.  When
the content row is absent (as it always is inside the `AFTER DELETE`
trigger `bookmarks_ad`), no values are found and the index is unchanged. -/
def ftsDeleteRowid (content : List BookmarkRow) (ix : List FtsEntry)
    (rid : Nat) : List FtsEntry :=
  match content.find? (fun b => b.id == rid) with
  | none => ix
  | some b => ix.filter (fun e => e ≠ entryOf b)

/-- The backfill statement run on every open (`database.py` lines 163-166):
`INSERT OR IGNORE INTO bookmark_fts(...) SELECT id, title, description,
content_snippet FROM bookmarks`. -/
def ftsBackfill (rows : List BookmarkRow) (ix : List FtsEntry) : List FtsEntry :=
  rows.foldl (fun acc b => ftsInsert acc (entryOf b)) ix

/-- `BookmarkDatabase._create_tables` (`database.py` lines 77-166): every
`CREATE ... IF NOT EXISTS` is a no-op against a file that already has the
schema (and creates it, without touching data, otherwise), so on the
modelled state only the final fts backfill has an effect. -/
def _create_tables (st : DBState) : DBState :=
  { st with bookmark_fts := ftsBackfill st.bookmarks st.bookmark_fts }

/-- `BookmarkDatabase.__init__` / the spec's `open(path)` (`database.py`
lines 43-53): load the file's state and run `_create_tables` in one
committed transaction. -/
def open_store (st : DBState) : DBState :=
  _create_tables st

/-- The rowid sqlite assigns to a fresh `bookmarks` insert
(`INTEGER PRIMARY KEY` without `AUTOINCREMENT`): one more than the largest
existing id, and `1` for an empty table. -/
def nextRowid (st : DBState) : Nat :=
  (st.bookmarks.map (fun b => b.id)).foldr max 0 + 1

/-- The `INSERT INTO bookmarks ... VALUES (?,?,?,?,?,?)` statement of
`add_bookmark` (`database.py` lines 173-179) together with the
`bookmarks_ai` trigger.  `NOT NULL` on `title`/`url` rejects `none`, and
`UNIQUE` on `url` rejects a duplicate, both with `IntegrityError`; on
success the new row is appended and the trigger mirrors it into the fts
index in the same transaction. -/
def insertBookmark (st : DBState) (title url description content_snippet
    source : Option String) (now : Nat) : Except SqliteError (Nat × DBState) :=
  match title, url with
  | some t, some u =>
      if st.bookmarks.any (fun b => b.url == u) then
        .error .IntegrityError
      else
        let rid := nextRowid st
        let row : BookmarkRow := ⟨rid, u, t, description, now, content_snippet, source⟩
        .ok (rid, { st with
          bookmarks := st.bookmarks ++ [row],
          bookmark_fts := ftsInsert st.bookmark_fts (entryOf row) })
  | _, _ => .error .IntegrityError

/-- `BookmarkDatabase.add_bookmark` (`database.py` lines 168-183): run the
insert inside `get_connection` (commit on success, rollback on exception);
`except sqlite3.IntegrityError` re-raises as `DuplicateBookmarkError`.  The
result pairs the outcome (`cursor.lastrowid` or the raised exception) with
the post-transaction state — on an exception the rollback leaves the state
exactly as it was. -/
def add_bookmark (st : DBState) (title url description content_snippet
    source : Option String) (now : Nat) : Except PyExn Nat × DBState :=
  match insertBookmark st title url description content_snippet source now with
  | .ok (rid, st') => (.ok rid, st')
  | .error .IntegrityError => (.error .DuplicateBookmarkError, st)
  | .error e => (.error (.sqlite e), st)

/-- `BookmarkDatabase.get_bookmarks` (`database.py` lines 185-199):
`SELECT * FROM bookmarks` (rowid order = insertion order here), but any
exception raised by the storage layer during the read — modelled by the
`storage_fault` flag — is caught by `except Exception`, printed, and
swallowed into the empty list. -/
def get_bookmarks (st : DBState) (storage_fault : Bool) : List BookmarkRow :=
  if storage_fault then [] else st.bookmarks

/-- `BookmarkDatabase.delete_bookmark` (`database.py` lines 201-220):
`DELETE FROM bookmarks WHERE id = ?`, returning `cursor.rowcount > 0`.  The
`bookmarks_ad` trigger then runs `DELETE FROM bookmark_fts WHERE rowid =
old.id` against the already-updated content table, and — `foreign_keys`
being off on every fresh connection — the `ON DELETE CASCADE` on
`bookmark_tags` does not fire, so that table is untouched. -/
def delete_bookmark (st : DBState) (bookmark_id : Nat) : Bool × DBState :=
  let deleted := st.bookmarks.filter (fun b => b.id == bookmark_id)
  let remaining := st.bookmarks.filter (fun b => !(b.id == bookmark_id))
  let st1 : DBState := { st with bookmarks := remaining }
  let st2 : DBState :=
    { st1 with bookmark_fts := ftsDeleteRowid st1.bookmarks st1.bookmark_fts bookmark_id }
  (decide (0 < deleted.length), st2)

/-- `BookmarkDatabase.search_bookmarks` (`database.py` lines 222-252).  The
fts5 engine's evaluation of `bookmark_fts MATCH ?` is supplied as
`match_result`: `.error .OperationalError` for a query malformed per the
fts5 grammar, `.ok rowids` (in `ORDER BY rank` order) for a well-formed
one.  The `JOIN bookmarks b ON fts.rowid = b.id` keeps only rowids with a
live bookmark row, and `except Exception` prints and swallows any raised
error into the empty list. -/
def search_bookmarks (st : DBState) (match_result : Except SqliteError (List Nat)) :
    List BookmarkRow :=
  match match_result with
  | .error _ => []
  | .ok rowids => rowids.filterMap (fun rid => st.bookmarks.find? (fun b => b.id == rid))

/-- A sample store used to instantiate the universally quantified theorems:
one bookmark (id 1), one tag, one association, and the matching fts entry. -/
def sampleDB : DBState :=
  ⟨[⟨1, "http://a", "Rust Ownership Guide", none, 0, none, none⟩],
   [⟨1, "rust", none, some false⟩],
   [⟨1, 1, none⟩],
   [⟨1, some "Rust Ownership Guide", none, none⟩]⟩

/-! ## Supporting lemmas about the fts index model -/

theorem mem_ftsInsert {ix : List FtsEntry} {a : FtsEntry} (e : FtsEntry)
    (h : a ∈ ix) : a ∈ ftsInsert ix e := by
  unfold ftsInsert
  split
  · exact h
  · exact List.mem_append_left _ h

theorem self_mem_ftsInsert (ix : List FtsEntry) (e : FtsEntry) :
    e ∈ ftsInsert ix e := by
  unfold ftsInsert
  split
  · assumption
  · exact List.mem_append_right _ (List.mem_singleton.mpr rfl)

theorem ftsInsert_eq_of_mem {ix : List FtsEntry} {e : FtsEntry} (h : e ∈ ix) :
    ftsInsert ix e = ix := by
  unfold ftsInsert
  simp [h]

theorem mem_ftsBackfill (rows : List BookmarkRow) {ix : List FtsEntry}
    {a : FtsEntry} (h : a ∈ ix) : a ∈ ftsBackfill rows ix := by
  induction rows generalizing ix with
  | nil => exact h
  | cons b rest ih => exact ih (mem_ftsInsert _ h)

theorem entryOf_mem_ftsBackfill {rows : List BookmarkRow} (ix : List FtsEntry)
    {b : BookmarkRow} (h : b ∈ rows) : entryOf b ∈ ftsBackfill rows ix := by
  induction rows generalizing ix with
  | nil => cases h
  | cons c rest ih =>
      rcases List.mem_cons.mp h with rfl | h
      · exact mem_ftsBackfill rest (self_mem_ftsInsert ix (entryOf b))
      · exact ih _ h

theorem ftsBackfill_eq_of_mem {rows : List BookmarkRow} {ix : List FtsEntry}
    (h : ∀ b ∈ rows, entryOf b ∈ ix) : ftsBackfill rows ix = ix := by
  induction rows with
  | nil => rfl
  | cons b rest ih =>
      have hb : entryOf b ∈ ix := h b (List.mem_cons_self b rest)
      show ftsBackfill rest (ftsInsert ix (entryOf b)) = ix
      rw [ftsInsert_eq_of_mem hb]
      exact ih (fun c hc => h c (List.mem_cons_of_mem b hc))

theorem ftsBackfill_idem (rows : List BookmarkRow) (ix : List FtsEntry) :
    ftsBackfill rows (ftsBackfill rows ix) = ftsBackfill rows ix :=
  ftsBackfill_eq_of_mem (fun _ hb => entryOf_mem_ftsBackfill ix hb)

theorem create_tables_idem (st : DBState) :
    _create_tables (_create_tables st) = _create_tables st := by
  cases st with
  | mk bm tg bt ix =>
      simp only [_create_tables]
      rw [ftsBackfill_idem]

/-! ## Claim theorems -/

/-- C1: on every store state, calling `add_bookmark` with a `url` already
present fails with `DuplicateBookmarkError` and leaves the store unchanged:
`get_bookmarks` returns the same content (hence the same row count) before
and after the failed call. -/
theorem add_bookmark_duplicate_url_fails_unchanged
    (st : DBState) (t u : String) (d cs s : Option String) (now : Nat)
    (h : st.bookmarks.any (fun b => b.url == u) = true) :
    (add_bookmark st (some t) (some u) d cs s now).1
        = .error .DuplicateBookmarkError ∧
    get_bookmarks (add_bookmark st (some t) (some u) d cs s now).2 false
        = get_bookmarks st false ∧
    (get_bookmarks (add_bookmark st (some t) (some u) d cs s now).2 false).length
        = (get_bookmarks st false).length := by
  unfold add_bookmark insertBookmark
  simp [h]

/-- Witness for C1: `sampleDB` already holds url `"http://a"`, and
re-adding it fails with `DuplicateBookmarkError` leaving the store as it
was. -/
theorem add_bookmark_duplicate_url_fails_unchanged_witness :
    sampleDB.bookmarks.any (fun b => b.url == "http://a") = true ∧
    ((add_bookmark sampleDB (some "x") (some "http://a") none none none 5).1
        = .error .DuplicateBookmarkError ∧
     get_bookmarks (add_bookmark sampleDB (some "x") (some "http://a")
          none none none 5).2 false
        = get_bookmarks sampleDB false ∧
     (get_bookmarks (add_bookmark sampleDB (some "x") (some "http://a")
          none none none 5).2 false).length
        = (get_bookmarks sampleDB false).length) :=
  ⟨by decide,
   add_bookmark_duplicate_url_fails_unchanged sampleDB "x" "http://a"
     none none none 5 (by decide)⟩

/-- C2 (refuting evidence): after `add_bookmark` of "Rust Ownership Guide"
followed by `delete_bookmark 1`, the primary table is empty but the fts
index still holds the entry for rowid 1 — an index entry without a
corresponding bookmark row, so the claimed invariant is not preserved by
`delete_bookmark`. -/
theorem fts_entry_survives_delete :
    (delete_bookmark (add_bookmark (open_store emptyDB)
        (some "Rust Ownership Guide") (some "http://a") none none none 0).2 1).2.bookmarks
      = [] ∧
    (delete_bookmark (add_bookmark (open_store emptyDB)
        (some "Rust Ownership Guide") (some "http://a") none none none 0).2 1).2.bookmark_fts
      = [⟨1, some "Rust Ownership Guide", none, none⟩] :=
  ⟨rfl, rfl⟩

/-- C3 (refuting evidence): `sampleDB` holds bookmark 1 with the
association `(1, 1)`; `delete_bookmark 1` reports success and removes the
bookmark row, yet the `bookmark_tags` association referencing the now
nonexistent bookmark id 1 remains (`PRAGMA foreign_keys` is off on every
connection the code opens, so `ON DELETE CASCADE` never fires). -/
theorem bookmark_tags_dangle_after_delete :
    (delete_bookmark sampleDB 1).1 = true ∧
    (delete_bookmark sampleDB 1).2.bookmarks = [] ∧
    (delete_bookmark sampleDB 1).2.bookmark_tags = [⟨1, 1, none⟩] :=
  ⟨rfl, rfl, rfl⟩

/-- C4: opening the store again is harmless: a (re-)open preserves
bookmarks, tags and associations exactly, never drops an fts index entry,
and a second open produces exactly the state of the first — no data loss,
no duplicated data, and (every `CREATE` being `IF NOT EXISTS`, modelled by
`open_store` being a total function) no duplicate-schema errors. -/
theorem open_store_idempotent_preserves (st : DBState) :
    (open_store st).bookmarks = st.bookmarks ∧
    (open_store st).tags = st.tags ∧
    (open_store st).bookmark_tags = st.bookmark_tags ∧
    (∀ e ∈ st.bookmark_fts, e ∈ (open_store st).bookmark_fts) ∧
    open_store (open_store st) = open_store st := by
  refine ⟨rfl, rfl, rfl, ?_, ?_⟩
  · exact fun e he => mem_ftsBackfill st.bookmarks he
  · exact create_tables_idem st

/-- Witness for C4: instantiated on `sampleDB`, whose fts entry survives a
re-open and for which the double open equals the single open. -/
theorem open_store_idempotent_preserves_witness :
    (⟨1, some "Rust Ownership Guide", none, none⟩ : FtsEntry)
        ∈ (open_store sampleDB).bookmark_fts ∧
    open_store (open_store sampleDB) = open_store sampleDB :=
  ⟨(open_store_idempotent_preserves sampleDB).2.2.2.1 _ (by decide),
   (open_store_idempotent_preserves sampleDB).2.2.2.2⟩

/-- C5 (refuting evidence): on every store, a query the fts5 engine rejects
as malformed (`OperationalError`, e.g. the query string `"AND"`) makes
`search_bookmarks` return `[]` — the very value returned for a well-formed
query with no matches — instead of failing with an `InvalidQuery`-style
error (the function's return type has no error channel at all). -/
theorem search_malformed_query_returns_empty (st : DBState) :
    search_bookmarks st (.error .OperationalError) = [] ∧
    search_bookmarks st (.error .OperationalError)
      = search_bookmarks st (.ok []) :=
  ⟨rfl, rfl⟩

/-- C6 (refuting evidence): on every store — however many bookmarks it
holds — a storage fault during the read makes `get_bookmarks` return `[]`,
indistinguishable from reading a legitimately empty store; no error is
propagated. -/
theorem get_bookmarks_fault_swallowed (st : DBState) :
    get_bookmarks st true = [] ∧
    get_bookmarks st true = get_bookmarks emptyDB false :=
  ⟨rfl, rfl⟩

/-- C7: on a freshly opened empty store, `add_bookmark "T" "http://x.test"`
returns id 1 and `get_bookmarks` then returns exactly one bookmark with
that title and url, `date_added` equal to the (always-present) insertion
timestamp, and `description`, `content_snippet`, `source` all absent. -/
theorem add_then_get_round_trip (now : Nat) :
    (add_bookmark (open_store emptyDB) (some "T") (some "http://x.test")
        none none none now).1 = .ok 1 ∧
    get_bookmarks (add_bookmark (open_store emptyDB) (some "T")
        (some "http://x.test") none none none now).2 false
      = [⟨1, "http://x.test", "T", none, now, none, none⟩] :=
  ⟨rfl, rfl⟩

/-- C8: `delete_bookmark` returns `false` when no bookmark with the given
id exists, and for a present id returns `true`, after which that id no
longer appears in `get_bookmarks`. -/
theorem delete_bookmark_semantics (st : DBState) (i : Nat) :
    ((∀ b ∈ st.bookmarks, b.id ≠ i) → (delete_bookmark st i).1 = false) ∧
    ((∃ b ∈ st.bookmarks, b.id = i) →
      (delete_bookmark st i).1 = true ∧
      ∀ b ∈ get_bookmarks (delete_bookmark st i).2 false, b.id ≠ i) := by
  constructor
  · intro h
    have hnil : st.bookmarks.filter (fun b => b.id == i) = [] :=
      List.filter_eq_nil_iff.mpr (fun b hb => by simpa using h b hb)
    simp [delete_bookmark, hnil]
  · rintro ⟨b, hb, hbi⟩
    constructor
    · have hmem : b ∈ st.bookmarks.filter (fun b => b.id == i) :=
        List.mem_filter.mpr ⟨hb, by simpa using hbi⟩
      simp [delete_bookmark, List.length_pos.mpr (List.ne_nil_of_mem hmem)]
    · intro c hc
      have : c ∈ st.bookmarks.filter (fun b => !(b.id == i)) := hc
      simpa using (List.mem_filter.mp this).2

/-- Witness for C8: in `sampleDB`, deleting the absent id 2 returns
`false`, and deleting the present id 1 returns `true` with id 1 gone from
`get_bookmarks`. -/
theorem delete_bookmark_semantics_witness :
    (delete_bookmark sampleDB 2).1 = false ∧
    ((delete_bookmark sampleDB 1).1 = true ∧
      ∀ b ∈ get_bookmarks (delete_bookmark sampleDB 1).2 false, b.id ≠ 1) :=
  ⟨(delete_bookmark_semantics sampleDB 2).1 (by decide),
   (delete_bookmark_semantics sampleDB 1).2 (by decide)⟩

/-- C9 (counterexample): on a freshly opened empty store, `add_bookmark`
with `title = ""` and `url = ""` succeeds — it returns id 1 and stores a
row with empty required fields, refuting the claim that such a call does
not insert a bookmark row. -/
theorem add_bookmark_empty_strings_inserted :
    (add_bookmark (open_store emptyDB) (some "") (some "")
        none none none 0).1 = .ok 1 ∧
    (add_bookmark (open_store emptyDB) (some "") (some "")
        none none none 0).2.bookmarks
      = [⟨1, "", "", none, 0, none, none⟩] :=
  ⟨rfl, rfl⟩

/-- C9 (amended): the requirement the code enforces is non-NULL, not
non-empty: for every call where `title` or `url` is missing (`none`, SQL
`NULL`), `add_bookmark` inserts nothing — the primary table is unchanged
and the call does not return an id. -/
theorem add_bookmark_null_field_no_insert
    (st : DBState) (t u d cs s : Option String) (now : Nat)
    (h : t = none ∨ u = none) :
    (add_bookmark st t u d cs s now).2.bookmarks = st.bookmarks ∧
    ∀ r : Nat, (add_bookmark st t u d cs s now).1 ≠ .ok r := by
  rcases h with rfl | rfl
  · cases u <;> exact ⟨rfl, fun r hr => by cases hr⟩
  · cases t <;> exact ⟨rfl, fun r hr => by cases hr⟩

/-- Witness for C9's amended theorem: `add_bookmark` with a `none` title
on `sampleDB` stores nothing and returns no id. -/
theorem add_bookmark_null_field_no_insert_witness :
    ((none : Option String) = none ∨ (some "x" : Option String) = none) ∧
    ((add_bookmark sampleDB none (some "x") none none none 7).2.bookmarks
        = sampleDB.bookmarks ∧
     ∀ r : Nat, (add_bookmark sampleDB none (some "x")
        none none none 7).1 ≠ .ok r) :=
  ⟨Or.inl rfl,
   add_bookmark_null_field_no_insert sampleDB none (some "x")
     none none none 7 (Or.inl rfl)⟩

/-- C10: `add_bookmark` converts every `IntegrityError` of the insert into
`DuplicateBookmarkError` — in particular a call with `title = none` or
`url = none` (a NOT NULL violation) raises `DuplicateBookmarkError`, not a
distinct validation error. -/
theorem add_bookmark_integrity_error_becomes_duplicate
    (st : DBState) (t u d cs s : Option String) (now : Nat) :
    ((insertBookmark st t u d cs s now = .error .IntegrityError) →
      (add_bookmark st t u d cs s now).1 = .error .DuplicateBookmarkError) ∧
    ((t = none ∨ u = none) →
      (add_bookmark st t u d cs s now).1 = .error .DuplicateBookmarkError) := by
  constructor
  · intro h
    unfold add_bookmark
    rw [h]
  · rintro (rfl | rfl)
    · cases u <;> rfl
    · cases t <;> rfl

/-- Witness for C10: with a `none` url on `sampleDB`, the insert raises
`IntegrityError` and `add_bookmark` surfaces it as
`DuplicateBookmarkError`. -/
theorem add_bookmark_integrity_error_becomes_duplicate_witness :
    (insertBookmark sampleDB (some "T") none none none none 9
        = .error .IntegrityError) ∧
    ((some "T" : Option String) = none ∨ (none : Option String) = none) ∧
    (add_bookmark sampleDB (some "T") none none none none 9).1
        = .error .DuplicateBookmarkError :=
  ⟨rfl, Or.inr rfl,
   (add_bookmark_integrity_error_becomes_duplicate sampleDB (some "T") none
      none none none 9).1 rfl⟩

end Boomer
